import Mathlib

/-!
# Verification of the agent-sync reconciliation engine

Shallow embedding of `agent_sync` (sync_engine.py, models.py,
formatters/skills.py, formatters/mcp.py, formatters/commands.py,
user_config.py) into Lean 4, together with proofs and refutations of the
specification's claims about the reconciliation engine.

Conventions of the embedding:
* Python `str | None` becomes `Option String`; Python truthiness of such a
  value (`if srv.url:`) is `optStrTruthy` (some nonempty string).
* Python lists become `List`; list truthiness is non-emptiness.
* Python dicts keyed by tool name become association lists
  `List (ToolName × ToolConfig)` in insertion order; `dict.get` is the
  first-match lookup `lookupTc`.
* Python `str.lower()` is modelled per character by `pyLowerChar`
  (ASCII lowercasing, which is what the repository's identifiers use).
* Filesystem and JSON/TOML stores touched by the fixers and writers are
  modelled as an explicit `World` state threaded through the functions;
  external checks read the world, writes replace components of it.
-/

namespace AgentSync

/-- `ToolName` enum from models.py. -/
inductive ToolName where
  | copilot
  | claude
  | codex
  | vscode
deriving DecidableEq, Repr

/-- `ToolName.value` — the string payload of the `StrEnum`. -/
def toolValue : ToolName → String
  | .copilot => "copilot"
  | .claude => "claude"
  | .codex => "codex"
  | .vscode => "vscode"

/-- `SyncStatus` enum from models.py. -/
inductive SyncStatus where
  | synced
  | drift
  | missing
  | extra
  | notApplicable
deriving DecidableEq, Repr

/-- `McpServerType` enum from models.py. -/
inductive McpServerType where
  | http
  | stdio
  | loc
deriving DecidableEq, Repr

/-- `FixActionType` enum from models.py. -/
inductive FixActionType where
  | addMcp
  | updateMcp
  | removeMcp
  | createSymlink
  | addConfig
  | writeCommand
  | overwriteCommand
  | copyCommand
  | reconcileCommand
  | installPlugin
deriving DecidableEq, Repr

/-- The public string value of each `FixActionType` member. -/
def fixActionValue : FixActionType → String
  | .addMcp => "add-mcp"
  | .updateMcp => "update-mcp"
  | .removeMcp => "remove-mcp"
  | .createSymlink => "create-symlink"
  | .addConfig => "add-config"
  | .writeCommand => "write-command"
  | .overwriteCommand => "overwrite-command"
  | .copyCommand => "copy-command"
  | .reconcileCommand => "reconcile-command"
  | .installPlugin => "install-plugin"

/-- `McpServer` dataclass from models.py. -/
structure McpServer where
  name : String
  server_type : McpServerType
  url : Option String := none
  command : Option String := none
  args : List String := []
  headers : List (String × String) := []
  env : List (String × String) := []
  tools : List String := ["*"]
  enabled_for : List ToolName := []
  enabled : Bool := true
deriving DecidableEq, Repr

/-- `Skill` dataclass from models.py (fields used by the engine). -/
structure Skill where
  name : String
  path : String
  description : String := ""
deriving DecidableEq, Repr

/-- `Command` dataclass from models.py (fields used by the engine);
the Python field `namespace` is spelled `nspace` here because `namespace`
is a Lean keyword. -/
structure Command where
  name : String
  slug : String
  nspace : String
  description : String := ""
  category : String := ""
  tags : List String := []
  argument_hint : String := ""
  sync_to : List ToolName := []
  body : String := ""
  body_hash : String := ""
deriving DecidableEq, Repr

/-- `Plugin` dataclass from models.py (fields used by the engine). -/
structure Plugin where
  name : String
  path : String
  description : String := ""
  version : String := ""
deriving DecidableEq, Repr

/-- `ProductWorkflow` dataclass from models.py (fields used by the engine). -/
structure ProductWorkflow where
  name : String
  path : String
  copilot_plugin_installed : Bool := false
  copilot_plugin_version : String := ""
deriving DecidableEq, Repr

/-- `ToolConfig` dataclass from models.py (fields used by the engine). -/
structure ToolConfig where
  tool : ToolName
  mcp_servers : List McpServer := []
  skills : List Skill := []
  commands : List Command := []
  model : String := ""
deriving DecidableEq, Repr

/-- `CanonicalState` dataclass from models.py (fields used by the engine). -/
structure CanonicalState where
  agents_dir : String
  mcp_servers : List McpServer := []
  skills : List Skill := []
  commands : List Command := []
  product_workflows : List ProductWorkflow := []
  available_plugins : List Plugin := []
deriving DecidableEq, Repr

/-- `FixAction` dataclass from models.py. -/
structure FixAction where
  action : FixActionType
  tool : ToolName
  content_type : String
  target : String
  detail : String := ""
deriving DecidableEq, Repr

/-- `SyncItem` dataclass from models.py. -/
structure SyncItem where
  content_type : String
  item_name : String
  tool : ToolName
  status : SyncStatus
  detail : String := ""
  fix_action : Option FixAction := none
deriving DecidableEq, Repr

/-- The association-list model of the `dict[ToolName, ToolConfig]` argument. -/
abbrev ToolConfigs := List (ToolName × ToolConfig)

/-- `tool_configs.get(tool_name)` — first-match lookup in the dict. -/
def lookupTc (tcs : ToolConfigs) (t : ToolName) : Option ToolConfig :=
  (tcs.find? (fun p => p.1 = t)).map (·.2)

/-- `tool_name in tool_configs` — dict key membership. -/
def containsTool (tcs : ToolConfigs) (t : ToolName) : Bool :=
  tcs.any (fun p => p.1 = t)

/-- Python truthiness of a `str | None` value: `None` and `""` are falsy. -/
def optStrTruthy : Option String → Bool
  | none => false
  | some s => s ≠ ""

/-- The action verb carried by a sync item, if any. -/
def fixVerb (i : SyncItem) : Option FixActionType :=
  i.fix_action.map (·.action)

/-- User configuration fields read by the MCP comparator
(user_config.py, `McpConfig.ignore_servers` and
`ToolsConfig.ignore_extra_servers`). -/
structure UserCfg where
  mcp_ignore_servers : List String := []
  ignore_extra_servers : Bool := false
deriving DecidableEq, Repr

/-! ## Name normalizer (sync_engine._mcp_name_normalize) -/

/-- Python `str.lower()` modelled per character (ASCII lowercasing:
code points 65–90 shift by 32, all others are unchanged). -/
def pyLowerChar (c : Char) : Char :=
  if 65 ≤ c.toNat ∧ c.toNat ≤ 90 then Char.ofNat (c.toNat + 32) else c

/-- The character class `[a-z0-9]` kept by the regex in
`_mcp_name_normalize`; every other character is removed. -/
def mcpKeep (c : Char) : Bool :=
  (97 ≤ c.toNat ∧ c.toNat ≤ 122) ∨ (48 ≤ c.toNat ∧ c.toNat ≤ 57)

/-- `_mcp_name_normalize` from sync_engine.py:
`re.sub(r"[^a-z0-9]", "", name.lower())`. -/
def mcpNameNormalize (name : String) : String :=
  String.mk (((name.data).map pyLowerChar).filter mcpKeep)

/-! ## MCP comparator (sync_engine._compare_mcp) -/

/-- The drift reasons accumulated for a matched canonical/tool server pair:
each of `url`, `command`, `args` contributes a reason exactly when the field
is truthy on both sides and the two sides differ. -/
def mcpDriftReasons (srv ts : McpServer) : List String :=
  (if optStrTruthy srv.url ∧ optStrTruthy ts.url ∧ srv.url ≠ ts.url then
    ["URL mismatch: " ++ ts.url.getD ""] else [])
  ++ (if optStrTruthy srv.command ∧ optStrTruthy ts.command ∧ srv.command ≠ ts.command then
    ["Command mismatch: " ++ ts.command.getD ""] else [])
  ++ (if srv.args ≠ [] ∧ ts.args ≠ [] ∧ srv.args ≠ ts.args then
    ["Args mismatch"] else [])

/-- The sync item emitted for a canonical server matched (by normalized
name) to a tool-side server: `drift` with an `update-mcp` fix action when
any drift reason accumulated, else `synced`. -/
def mcpMatchedItem (srv : McpServer) (tool : ToolName) (ts : McpServer) : SyncItem :=
  if mcpDriftReasons srv ts = [] then
    { content_type := "mcp", item_name := srv.name, tool := tool,
      status := .synced }
  else
    { content_type := "mcp", item_name := srv.name, tool := tool,
      status := .drift,
      detail := String.intercalate "; " (mcpDriftReasons srv ts),
      fix_action := some
        { action := .updateMcp, tool := tool, content_type := "mcp",
          target := srv.name,
          detail := "Update " ++ srv.name ++ " in " ++ toolValue tool } }

/-- The sync item emitted for one canonical server and one of the three
fixed tool identities (the body of the inner loop of `_compare_mcp`);
`none` when the tool has no config entry (the loop `continue`s). -/
def mcpToolItem (tcs : ToolConfigs) (srv : McpServer) (tool : ToolName) :
    Option SyncItem :=
  match lookupTc tcs tool with
  | none => none
  | some tc =>
    if tool ∉ srv.enabled_for then
      some { content_type := "mcp", item_name := srv.name, tool := tool,
             status := .notApplicable,
             detail := "Not enabled for this tool" }
    else
      match tc.mcp_servers.find?
          (fun ts => mcpNameNormalize ts.name = mcpNameNormalize srv.name) with
      | none =>
        some { content_type := "mcp", item_name := srv.name, tool := tool,
               status := .missing,
               detail := "Canonical server not found in " ++ toolValue tool
                 ++ " config",
               fix_action := some
                 { action := .addMcp, tool := tool, content_type := "mcp",
                   target := srv.name,
                   detail := "Add " ++ srv.name ++ " to " ++ toolValue tool
                     ++ " MCP config" } }
      | some ts => some (mcpMatchedItem srv tool ts)

/-- Pass 1 of `_compare_mcp`: each canonical server not in the ignore set is
compared against the three fixed tool identities. -/
def mcpCanonicalItems (cfg : UserCfg) (canonical : CanonicalState)
    (tcs : ToolConfigs) : List SyncItem :=
  let ignored := cfg.mcp_ignore_servers.map mcpNameNormalize
  (canonical.mcp_servers.filter
      (fun srv => mcpNameNormalize srv.name ∉ ignored)).flatMap
    (fun srv =>
      [ToolName.copilot, ToolName.claude, ToolName.codex].filterMap
        (mcpToolItem tcs srv))

/-- The `extra` item emitted in pass 2 of `_compare_mcp` for one tool-side
server; `none` when the server is canonical, ignored, or extras are
suppressed. -/
def mcpExtraItem (cfg : UserCfg) (canonicalNames ignored : List String)
    (tool : ToolName) (ts : McpServer) : Option SyncItem :=
  if mcpNameNormalize ts.name ∈ canonicalNames ∨
      mcpNameNormalize ts.name ∈ ignored then
    none
  else if cfg.ignore_extra_servers then
    none
  else
    some { content_type := "mcp", item_name := ts.name, tool := tool,
           status := .extra,
           detail := "Server in " ++ toolValue tool
             ++ " not in canonical mcp.json",
           fix_action := some
             { action := .removeMcp, tool := tool, content_type := "mcp",
               target := ts.name,
               detail := "Add " ++ ts.name
                 ++ " to canonical mcp.json or remove from "
                 ++ toolValue tool } }

/-- Pass 2 of `_compare_mcp`: every entry of `tool_configs` is scanned for
servers absent from canonical. -/
def mcpExtraItems (cfg : UserCfg) (canonical : CanonicalState)
    (tcs : ToolConfigs) : List SyncItem :=
  let ignored := cfg.mcp_ignore_servers.map mcpNameNormalize
  let canonicalNames := canonical.mcp_servers.map
    (fun s => mcpNameNormalize s.name)
  tcs.flatMap (fun p =>
    p.2.mcp_servers.filterMap (mcpExtraItem cfg canonicalNames ignored p.1))

/-- `_compare_mcp` from sync_engine.py. -/
def compareMcp (cfg : UserCfg) (canonical : CanonicalState)
    (tcs : ToolConfigs) : List SyncItem :=
  mcpCanonicalItems cfg canonical tcs ++ mcpExtraItems cfg canonical tcs

/-! ## Skills comparator (sync_engine._compare_skills)

The three infrastructure checks (`check_claude_skills_symlink`,
`check_claude_additional_dirs`, `check_copilot_additional_dirs`) are
external filesystem reads; the comparator consumes their `(bool, str)`
results, bundled here as `InfraChecks`. -/

/-- Results of the three infrastructure checks consumed by
`_compare_skills`. -/
structure InfraChecks where
  symlink : Bool × String
  claude_dirs : Bool × String
  copilot_dirs : Bool × String
deriving DecidableEq, Repr

/-- The three infrastructure items emitted at the top of
`_compare_skills`. -/
def skillsInfraItems (checks : InfraChecks) : List SyncItem :=
  [ { content_type := "symlink", item_name := "claude-skills-symlink",
      tool := ToolName.claude,
      status := if checks.symlink.1 then .synced else .missing,
      detail := checks.symlink.2,
      fix_action := if checks.symlink.1 then none else some
        { action := .createSymlink, tool := .claude,
          content_type := "symlink", target := "claude-skills-symlink",
          detail := "Create junction .agents/.claude/skills/ → .agents/skills/" } },
    { content_type := "config", item_name := "claude-additional-dirs",
      tool := ToolName.claude,
      status := if checks.claude_dirs.1 then .synced else .missing,
      detail := checks.claude_dirs.2,
      fix_action := if checks.claude_dirs.1 then none else some
        { action := .addConfig, tool := .claude, content_type := "config",
          target := "claude-additional-dirs",
          detail := "Add .agents/skills to Claude additionalDirectories" } },
    { content_type := "config", item_name := "copilot-additional-dirs",
      tool := ToolName.copilot,
      status := if checks.copilot_dirs.1 then .synced else .missing,
      fix_action := if checks.copilot_dirs.1 then none else some
        { action := .addConfig, tool := .copilot, content_type := "config",
          target := "copilot-additional-dirs",
          detail := "Add .agents/skills to Copilot additionalDirectories" },
      detail := checks.copilot_dirs.2 } ]

/-- The per-(skill, tool) item of `_compare_skills`. -/
def skillItem (checks : InfraChecks) (skill : Skill) (tool : ToolName)
    (tc : ToolConfig) : SyncItem :=
  if skill.name ∈ tc.skills.map (·.name) then
    { content_type := "skill", item_name := skill.name, tool := tool,
      status := .synced, detail := "Accessible" }
  else if tool = ToolName.codex then
    { content_type := "skill", item_name := skill.name, tool := tool,
      status := .notApplicable, detail := "Codex uses built-in skills only" }
  else
    { content_type := "skill", item_name := skill.name, tool := tool,
      status := .missing,
      detail :=
        if tool = ToolName.claude ∧ ¬checks.claude_dirs.1 then
          "Configure additionalDirectories to access"
        else if tool = ToolName.copilot ∧ ¬checks.copilot_dirs.1 then
          "Configure additionalDirectories to access"
        else "Not accessible in " ++ toolValue tool }

/-- `_compare_skills` from sync_engine.py. -/
def compareSkills (checks : InfraChecks) (canonical : CanonicalState)
    (tcs : ToolConfigs) : List SyncItem :=
  skillsInfraItems checks
    ++ canonical.skills.flatMap (fun skill =>
        tcs.map (fun p => skillItem checks skill p.1 p.2))

/-! ## Commands comparator (sync_engine._compare_commands) -/

/-- Lexicographic order on `(namespace, slug)` keys, matching Python's
`sorted` on pairs of strings. -/
def keyLe (a b : String × String) : Bool :=
  decide (a.1 < b.1) || (a.1 = b.1 ∧ a.2 ≤ b.2)

/-- Lookup in a dict built by `{(c.namespace, c.slug): c for c in cmds}`:
a later command with the same key overwrites an earlier one. -/
def byKeyGet (cmds : List Command) (k : String × String) : Option Command :=
  cmds.foldl (fun acc c => if (c.nspace, c.slug) = k then some c else acc) none

/-- The command display name `f"{ns}/{slug}" if ns else slug`. -/
def commandDisplayName (ns slug : String) : String :=
  if ns = "" then slug else ns ++ "/" ++ slug

/-- One item of the Claude-versus-Codex pairwise comparison (the
no-canonical-commands mode of `_compare_commands`). -/
def pairwiseItemFor (claudeCmds codexCmds : List Command)
    (k : String × String) : Option SyncItem :=
  let name := commandDisplayName k.1 k.2
  match byKeyGet claudeCmds k, byKeyGet codexCmds k with
  | some c, some x =>
    if c.body_hash = x.body_hash then
      some { content_type := "command", item_name := name,
             tool := ToolName.claude, status := .synced,
             detail := "Body matches Codex" }
    else
      some { content_type := "command", item_name := name,
             tool := ToolName.claude, status := .drift,
             detail := "Body hash mismatch: Claude=" ++ c.body_hash.take 8
               ++ " Codex=" ++ x.body_hash.take 8,
             fix_action := some
               { action := .reconcileCommand, tool := .claude,
                 content_type := "command", target := name,
                 detail := "Reconcile command body between Claude and Codex" } }
  | some _, none =>
    some { content_type := "command", item_name := name,
           tool := ToolName.codex, status := .missing,
           detail := "Exists in Claude but not Codex",
           fix_action := some
             { action := .copyCommand, tool := .codex,
               content_type := "command", target := name,
               detail := "Copy " ++ name ++ " to Codex prompts" } }
  | none, some _ =>
    some { content_type := "command", item_name := name,
           tool := ToolName.claude, status := .missing,
           detail := "Exists in Codex but not Claude",
           fix_action := some
             { action := .copyCommand, tool := .claude,
               content_type := "command", target := name,
               detail := "Copy " ++ name ++ " to Claude commands" } }
  | none, none => none

/-- The sync targets of a canonical command:
`cmd.sync_to or [ToolName.CLAUDE, ToolName.CODEX]`. -/
def commandTargets (cmd : Command) : List ToolName :=
  if cmd.sync_to = [] then [ToolName.claude, ToolName.codex] else cmd.sync_to

/-- The item emitted when a canonical command found its (namespace, slug)
match on a target tool: synced on equal body hash, drift with
`overwrite-command` otherwise. -/
def commandItemFound (cmd : Command) (tool : ToolName) (tool_cmd : Command) :
    SyncItem :=
  if cmd.body_hash = tool_cmd.body_hash then
    { content_type := "command",
      item_name := commandDisplayName cmd.nspace cmd.slug, tool := tool,
      status := .synced }
  else
    { content_type := "command",
      item_name := commandDisplayName cmd.nspace cmd.slug, tool := tool,
      status := .drift,
      detail := "Body hash: canonical=" ++ cmd.body_hash.take 8 ++ " "
        ++ toolValue tool ++ "=" ++ tool_cmd.body_hash.take 8,
      fix_action := some
        { action := .overwriteCommand, tool := tool,
          content_type := "command",
          target := commandDisplayName cmd.nspace cmd.slug,
          detail := "Overwrite " ++ toolValue tool ++ " "
            ++ commandDisplayName cmd.nspace cmd.slug ++ " from canonical" } }

/-- The item emitted for one canonical command and one target tool that has
a config entry (canonical-commands mode of `_compare_commands`). -/
def commandItemFor (cmd : Command) (tool : ToolName) (tc : ToolConfig) :
    SyncItem :=
  match tc.commands.find?
      (fun c => c.nspace = cmd.nspace ∧ c.slug = cmd.slug) with
  | none =>
    { content_type := "command",
      item_name := commandDisplayName cmd.nspace cmd.slug, tool := tool,
      status := .missing,
      detail := "Canonical command not found in " ++ toolValue tool,
      fix_action := some
        { action := .writeCommand, tool := tool, content_type := "command",
          target := commandDisplayName cmd.nspace cmd.slug,
          detail := "Write " ++ commandDisplayName cmd.nspace cmd.slug
            ++ " to " ++ toolValue tool } }
  | some tool_cmd => commandItemFound cmd tool tool_cmd

/-- The items emitted for one canonical command: one per target tool that
has a config entry (tools outside `sync_to` are not evaluated at all). -/
def commandItemsFor (tcs : ToolConfigs) (cmd : Command) : List SyncItem :=
  (commandTargets cmd).filterMap
    (fun tool => (lookupTc tcs tool).map (commandItemFor cmd tool))

/-- `_compare_commands` from sync_engine.py. -/
def compareCommands (canonical : CanonicalState) (tcs : ToolConfigs) :
    List SyncItem :=
  if canonical.commands = [] then
    match lookupTc tcs .claude, lookupTc tcs .codex with
    | some ctc, some xtc =>
      let ckeys := ctc.commands.map (fun c => (c.nspace, c.slug))
      let xkeys := xtc.commands.map (fun c => (c.nspace, c.slug))
      (((ckeys ++ xkeys).eraseDups).mergeSort keyLe).filterMap
        (pairwiseItemFor ctc.commands xtc.commands)
    | _, _ => []
  else
    canonical.commands.flatMap (commandItemsFor tcs)

/-! ## Plugin comparator (sync_engine._compare_plugins) -/

/-- Python `str.lower()` on a whole string. -/
def pyLower (s : String) : String :=
  String.mk (s.data.map pyLowerChar)

/-- Python substring containment `t in s` over the underlying character
lists: `t` occurs contiguously in `s` (the empty string is contained in
everything). -/
def charsContain (t : List Char) : List Char → Bool
  | [] => t.isEmpty
  | c :: s => t.isPrefixOf (c :: s) || charsContain t s

/-- Python `t in s` for strings. -/
def pyInStr (t s : String) : Bool :=
  charsContain t.data s.data

/-- Python `str.replace` over character lists (leftmost, non-overlapping,
all occurrences), with explicit fuel for structural recursion; the fuel is
instantiated with the string length, which one match step at least
consumes one character of. -/
def replaceCharsAux (pat rep : List Char) : Nat → List Char → List Char
  | 0, s => s
  | _ + 1, [] => []
  | fuel + 1, c :: rest =>
    if pat ≠ [] ∧ pat.isPrefixOf (c :: rest) then
      rep ++ replaceCharsAux pat rep fuel (rest.drop (pat.length - 1))
    else c :: replaceCharsAux pat rep fuel rest

/-- Python `s.replace(pat, rep)` over character lists. -/
def replaceChars (pat rep s : List Char) : List Char :=
  replaceCharsAux pat rep s.length s

/-- Python `s.split(sep)` for a one-character separator:
the empty string yields `[""]`, adjacent separators yield empty fields. -/
def splitOnChar (sep : Char) : List Char → List (List Char)
  | [] => [[]]
  | c :: rest =>
    let r := splitOnChar sep rest
    if c = sep then [] :: r
    else
      match r with
      | [] => [[c]]
      | h :: t => (c :: h) :: t

/-- The hyphen-delimited tokens of a product workflow name after the two
fixed compound-name substitutions:
`workflow.name.lower().replace("next", "-next").replace("studio", "-studio").split("-")`. -/
def productTokens (w : ProductWorkflow) : List String :=
  (splitOnChar '-'
    (replaceChars "studio".data "-studio".data
      (replaceChars "next".data "-next".data
        ((pyLower w.name).data)))).map String.mk

/-- The token-overlap heuristic: some workflow token longer than 3
characters occurs in the lowercased plugin name. -/
def tokenMatch (w : ProductWorkflow) (p : Plugin) : Bool :=
  (productTokens w).any
    (fun token => decide (3 < token.length) && pyInStr token (pyLower p.name))

/-- The first plugin in scan order matching the workflow, if any. -/
def matchingPlugin (w : ProductWorkflow) (plugins : List Plugin) :
    Option Plugin :=
  plugins.find? (tokenMatch w)

/-- The items emitted for one product workflow: none when no plugin
matches, otherwise one installed/missing item for the first match. -/
def pluginItemsFor (plugins : List Plugin) (w : ProductWorkflow) :
    List SyncItem :=
  match matchingPlugin w plugins with
  | none => []
  | some p =>
    if w.copilot_plugin_installed then
      [ { content_type := "plugin", item_name := p.name,
          tool := ToolName.copilot, status := .synced,
          detail := "v" ++ w.copilot_plugin_version } ]
    else
      [ { content_type := "plugin", item_name := p.name,
          tool := ToolName.copilot, status := .missing,
          detail := w.name ++ " workflow plugin not installed",
          fix_action := some
            { action := .installPlugin, tool := .copilot,
              content_type := "plugin", target := p.name,
              detail := "Install via: gh copilot plugin install integralanalytics/ia-skills-hub/"
                ++ p.name } } ]

/-- `_compare_plugins` from sync_engine.py. -/
def comparePlugins (canonical : CanonicalState) (tcs : ToolConfigs) :
    List SyncItem :=
  if containsTool tcs ToolName.copilot then
    canonical.product_workflows.flatMap
      (pluginItemsFor canonical.available_plugins)
  else []

/-! ## Report (models.SyncReport, sync_engine.build_sync_report) -/

/-- `SyncReport` dataclass from models.py. -/
structure SyncReport where
  canonical : CanonicalState
  tool_configs : ToolConfigs := []
  items : List SyncItem := []

/-- `SyncReport.synced_count` (a computed property, never stored). -/
def SyncReport.synced_count (r : SyncReport) : Nat :=
  (r.items.filter (fun i => i.status = SyncStatus.synced)).length

/-- `SyncReport.drift_count`. -/
def SyncReport.drift_count (r : SyncReport) : Nat :=
  (r.items.filter (fun i => i.status = SyncStatus.drift)).length

/-- `SyncReport.missing_count`. -/
def SyncReport.missing_count (r : SyncReport) : Nat :=
  (r.items.filter (fun i => i.status = SyncStatus.missing)).length

/-- `SyncReport.extra_count`. -/
def SyncReport.extra_count (r : SyncReport) : Nat :=
  (r.items.filter (fun i => i.status = SyncStatus.extra)).length

/-- `SyncReport.fixable_count`. -/
def SyncReport.fixable_count (r : SyncReport) : Nat :=
  (r.items.filter (fun i => i.fix_action.isSome)).length

/-- `SyncReport.overall_status`: `drift` when any of the drift, missing or
extra counts is nonzero, else `synced`. -/
def SyncReport.overall_status (r : SyncReport) : SyncStatus :=
  if r.drift_count ≠ 0 ∨ r.missing_count ≠ 0 ∨ r.extra_count ≠ 0 then
    SyncStatus.drift
  else SyncStatus.synced

/-- `build_sync_report` from sync_engine.py: concatenates the four
comparators' outputs in fixed order and wraps them with the state
references. -/
def buildSyncReport (cfg : UserCfg) (checks : InfraChecks)
    (canonical : CanonicalState) (tcs : ToolConfigs) : SyncReport :=
  { canonical := canonical,
    tool_configs := tcs,
    items := compareMcp cfg canonical tcs
      ++ compareSkills checks canonical tcs
      ++ compareCommands canonical tcs
      ++ comparePlugins canonical tcs }

/-! ## World model for the fixers and writers

`apply_fixes` and the formatter functions read and mutate external stores
(JSON/TOML config files, a filesystem junction, command files).  They are
embedded as explicit state passing over a `World` record; the path
constants of config.py are carried as strings in `World.paths`. -/

/-- String renderings of the path constants from config.py. -/
structure Paths where
  agentsDir : String
  canonicalSkillsDir : String
  claudeSymlinkSkills : String
  copilotMcpConfigJson : String
  codexConfigToml : String
  claudeCommandsDir : String
  codexPromptsDir : String

/-- One value of the `mcpServers` object written by
`generate_copilot_mcp`; `none` fields are keys the generator left out. -/
structure CopilotEntry where
  tools : List String
  type_ : String
  url : Option String := none
  headers : Option (List (String × String)) := none
  command : Option String := none
  args : Option (List String) := none
deriving DecidableEq, Repr

/-- One `mcp_servers` TOML section written by
`generate_codex_mcp_sections`. -/
structure CodexEntry where
  url : Option String := none
  enabled : Option Bool := none
  command : Option String := none
  args : Option (List String) := none
deriving DecidableEq, Repr

/-- The external state read and written by the fixers and writers. -/
structure World where
  paths : Paths
  /-- `permissions.additionalDirectories` of Claude settings.json. -/
  claudeSettingsDirs : List String
  /-- `additionalDirectories` of Copilot config.json. -/
  copilotConfigDirs : List String
  /-- `.agents/.claude/skills` exists. -/
  symlinkExists : Bool
  /-- `_is_junction` holds of `.agents/.claude/skills`. -/
  symlinkIsJunction : Bool
  /-- `.agents/.claude/skills` is a directory. -/
  symlinkIsDir : Bool
  /-- What `.agents/.claude/skills` resolves to. -/
  symlinkResolved : String
  /-- `Path(d).exists()` for an arbitrary path string. -/
  pathExists : String → Bool
  /-- `Path(d).resolve()` for an arbitrary path string. -/
  pathResolve : String → String
  /-- `CANONICAL_SKILLS_DIR.resolve()`. -/
  canonicalSkillsResolved : String
  /-- `AGENTS_DIR.resolve()`. -/
  agentsDirResolved : String
  /-- The canonical skills directory exists. -/
  canonicalSkillsExists : Bool
  /-- Number of skill subdirectories holding a SKILL.md file. -/
  skillCount : Nat
  /-- Copilot mcp-config.json exists. -/
  copilotMcpExists : Bool
  /-- Parsed `mcpServers` object of Copilot mcp-config.json. -/
  copilotMcpServers : List (String × CopilotEntry)
  /-- Codex config.toml exists. -/
  codexConfigExists : Bool
  /-- Parsed `mcp_servers` table of Codex config.toml. -/
  codexMcpSections : List (String × CodexEntry)
  /-- Claude command files written (path → content). -/
  claudeFiles : List (String × String)
  /-- Codex prompt files written (path → content). -/
  codexFiles : List (String × String)

/-- `check_claude_skills_symlink` from formatters/skills.py. -/
def checkClaudeSkillsSymlink (w : World) : Bool × String :=
  if ¬ w.symlinkExists then
    (false, "Missing: " ++ w.paths.claudeSymlinkSkills ++ " does not exist")
  else if w.symlinkIsJunction then
    if w.symlinkResolved = w.canonicalSkillsResolved then
      (true, "OK: " ++ w.paths.claudeSymlinkSkills ++ " → "
        ++ w.canonicalSkillsResolved)
    else
      (false, "Wrong target: " ++ w.paths.claudeSymlinkSkills ++ " → "
        ++ w.symlinkResolved ++ " (expected " ++ w.canonicalSkillsResolved
        ++ ")")
  else
    (false, "Not a symlink: " ++ w.paths.claudeSymlinkSkills
      ++ " is a regular directory")

/-- The entry loop of `check_claude_additional_dirs`: the loop returns on
the first entry that does not exist or resolves to a canonical location. -/
def claudeDirsLoop (w : World) : List String → Bool × String
  | [] => (false, "Missing: " ++ w.paths.agentsDir
      ++ " not in Claude additionalDirectories")
  | d :: rest =>
    if ¬ w.pathExists d then
      (false, "Invalid: Path does not exist: " ++ d)
    else if w.pathResolve d = w.canonicalSkillsResolved then
      (true, "OK: " ++ d ++ " → " ++ toString w.skillCount
        ++ " skills accessible")
    else if w.pathResolve d = w.agentsDirResolved then
      if w.canonicalSkillsExists then
        (true, "OK: " ++ d ++ " (root) → " ++ toString w.skillCount
          ++ " skills accessible via subdirectory")
      else
        (false, "Invalid: " ++ d ++ " exists but skills subdirectory missing")
    else claudeDirsLoop w rest

/-- `check_claude_additional_dirs` from formatters/skills.py. -/
def checkClaudeAdditionalDirs (w : World) : Bool × String :=
  if w.claudeSettingsDirs = [] then
    (false, "Missing: No additionalDirectories configured")
  else claudeDirsLoop w w.claudeSettingsDirs

/-- The entry loop of `check_copilot_additional_dirs` (no agents-root
case). -/
def copilotDirsLoop (w : World) : List String → Bool × String
  | [] => (false, "Missing: " ++ w.paths.canonicalSkillsDir
      ++ " not in Copilot additionalDirectories")
  | d :: rest =>
    if ¬ w.pathExists d then
      (false, "Invalid: Path does not exist: " ++ d)
    else if w.pathResolve d = w.canonicalSkillsResolved then
      (true, "OK: " ++ d ++ " → " ++ toString w.skillCount
        ++ " skills accessible")
    else copilotDirsLoop w rest

/-- `check_copilot_additional_dirs` from formatters/skills.py. -/
def checkCopilotAdditionalDirs (w : World) : Bool × String :=
  if w.copilotConfigDirs = [] then
    (false, "Missing: No additionalDirectories configured")
  else copilotDirsLoop w w.copilotConfigDirs

/-- `fix_claude_skills_symlink` from formatters/skills.py. -/
def fixClaudeSkillsSymlink (w : World) (dry_run : Bool) : String × World :=
  let vd := checkClaudeSkillsSymlink w
  if vd.1 then ("Already valid: " ++ vd.2, w)
  else if dry_run then
    ("Would create junction " ++ w.paths.claudeSymlinkSkills ++ " → "
      ++ w.paths.canonicalSkillsDir, w)
  else if w.symlinkExists ∧ w.symlinkIsDir ∧ ¬ w.symlinkIsJunction then
    ("Skipped: " ++ w.paths.claudeSymlinkSkills
      ++ " is a real directory, won\x27t overwrite", w)
  else
    ("Created junction " ++ w.paths.claudeSymlinkSkills ++ " → "
      ++ w.paths.canonicalSkillsDir,
     { w with symlinkExists := true, symlinkIsJunction := true,
              symlinkIsDir := true,
              symlinkResolved := w.canonicalSkillsResolved })

/-- `fix_claude_additional_dirs` from formatters/skills.py. -/
def fixClaudeAdditionalDirs (w : World) (dry_run : Bool) : String × World :=
  let vd := checkClaudeAdditionalDirs w
  if vd.1 then ("Already valid: " ++ vd.2, w)
  else if dry_run then
    ("Would add " ++ w.paths.canonicalSkillsDir
      ++ " to Claude additionalDirectories", w)
  else
    let dirs := w.claudeSettingsDirs
    let dirs2 := if w.paths.canonicalSkillsDir ∈ dirs then dirs
      else dirs ++ [w.paths.canonicalSkillsDir]
    ("Added " ++ w.paths.canonicalSkillsDir
      ++ " to Claude additionalDirectories",
     { w with claudeSettingsDirs := dirs2 })

/-- `fix_copilot_additional_dirs` from formatters/skills.py. -/
def fixCopilotAdditionalDirs (w : World) (dry_run : Bool) : String × World :=
  let vd := checkCopilotAdditionalDirs w
  if vd.1 then ("Already valid: " ++ vd.2, w)
  else if dry_run then
    ("Would add " ++ w.paths.canonicalSkillsDir
      ++ " to Copilot additionalDirectories", w)
  else
    let dirs := w.copilotConfigDirs
    let dirs2 := if w.paths.canonicalSkillsDir ∈ dirs then dirs
      else dirs ++ [w.paths.canonicalSkillsDir]
    ("Added " ++ w.paths.canonicalSkillsDir
      ++ " to Copilot additionalDirectories",
     { w with copilotConfigDirs := dirs2 })

/-! ### MCP writers (formatters/mcp.py) -/

/-- `McpServerType.value`. -/
def serverTypeValue : McpServerType → String
  | .http => "http"
  | .stdio => "stdio"
  | .loc => "local"

/-- `dict[key] = value` on an insertion-ordered string-keyed dict. -/
def dictInsert {α : Type} (m : List (String × α)) (k : String) (v : α) :
    List (String × α) :=
  if m.any (fun kv => kv.1 = k) then
    m.map (fun kv => if kv.1 = k then (k, v) else kv)
  else m ++ [(k, v)]

/-- `dict.update(new)` on insertion-ordered string-keyed dicts. -/
def dictUpdate {α : Type} (m new : List (String × α)) : List (String × α) :=
  new.foldl (fun acc kv => dictInsert acc kv.1 kv.2) m

/-- The entry built for one server by `generate_copilot_mcp`. -/
def copilotEntryOf (srv : McpServer) : CopilotEntry :=
  { tools := srv.tools,
    type_ := serverTypeValue srv.server_type,
    url := if optStrTruthy srv.url then srv.url else none,
    headers := if srv.headers ≠ [] then some srv.headers else none,
    command := if optStrTruthy srv.command then srv.command else none,
    args := if srv.args ≠ [] then some srv.args else none }

/-- `generate_copilot_mcp` from formatters/mcp.py: the `mcpServers`
object, one entry per server enabled for Copilot. -/
def generateCopilotMcp (servers : List McpServer) :
    List (String × CopilotEntry) :=
  dictUpdate []
    ((servers.filter (fun s => ToolName.copilot ∈ s.enabled_for)).map
      (fun s => (s.name, copilotEntryOf s)))

/-- `write_copilot_mcp` from formatters/mcp.py: read-merge-write into the
Copilot mcp-config.json, with a dry-run short-circuit before the write. -/
def writeCopilotMcp (w : World) (servers : List McpServer)
    (dry_run : Bool) : String × World :=
  let existing := if w.copilotMcpExists then w.copilotMcpServers else []
  let newData := generateCopilotMcp servers
  let merged := dictUpdate existing newData
  if dry_run then
    ("Would merge " ++ toString newData.length ++ " servers into "
      ++ w.paths.copilotMcpConfigJson ++ " (preserving "
      ++ toString existing.length ++ " existing)", w)
  else
    ("Merged " ++ toString newData.length ++ " servers into "
      ++ w.paths.copilotMcpConfigJson ++ " (total: "
      ++ toString merged.length ++ ")",
     { w with copilotMcpExists := true, copilotMcpServers := merged })

/-- The TOML section built for one server by
`generate_codex_mcp_sections`. -/
def codexEntryOf (srv : McpServer) : CodexEntry :=
  { url := if optStrTruthy srv.url then srv.url else none,
    enabled := if optStrTruthy srv.url then some srv.enabled else none,
    command := if optStrTruthy srv.command then srv.command else none,
    args := if srv.args ≠ [] then some srv.args else none }

/-- `generate_codex_mcp_sections` from formatters/mcp.py. -/
def generateCodexMcpSections (servers : List McpServer) :
    List (String × CodexEntry) :=
  dictUpdate []
    ((servers.filter (fun s => ToolName.codex ∈ s.enabled_for)).map
      (fun s => (s.name, codexEntryOf s)))

/-- `write_codex_mcp` from formatters/mcp.py. -/
def writeCodexMcp (w : World) (servers : List McpServer)
    (dry_run : Bool) : String × World :=
  let sections := generateCodexMcpSections servers
  if ¬ w.codexConfigExists then
    ("Skipped: " ++ w.paths.codexConfigToml ++ " does not exist", w)
  else
    let merged := dictUpdate w.codexMcpSections sections
    if dry_run then
      ("Would merge " ++ toString sections.length ++ " servers into "
        ++ w.paths.codexConfigToml ++ " (total: "
        ++ toString merged.length ++ ")", w)
    else
      ("Wrote " ++ toString sections.length ++ " MCP servers to "
        ++ w.paths.codexConfigToml,
       { w with codexMcpSections := merged })

/-! ### Command writers (formatters/commands.py) -/

/-- `_render_yaml_list`. -/
def renderYamlList (items : List String) : String :=
  "[" ++ String.intercalate ", " items ++ "]"

/-- `render_claude_frontmatter`. -/
def renderClaudeFrontmatter (cmd : Command) : String :=
  String.intercalate "\n" (["---"]
    ++ (if cmd.name ≠ "" then ["name: " ++ cmd.name] else [])
    ++ (if cmd.description ≠ "" then
        ["description: " ++ cmd.description] else [])
    ++ (if cmd.category ≠ "" then ["category: " ++ cmd.category] else [])
    ++ (if cmd.tags ≠ [] then ["tags: " ++ renderYamlList cmd.tags] else [])
    ++ ["---"])

/-- `render_codex_frontmatter`. -/
def renderCodexFrontmatter (cmd : Command) : String :=
  String.intercalate "\n" (["---"]
    ++ (if cmd.description ≠ "" then
        ["description: " ++ cmd.description] else [])
    ++ (if cmd.argument_hint ≠ "" then
        ["argument-hint: " ++ cmd.argument_hint] else [])
    ++ ["---"])

/-- `claude_command_path`, rendered as a string. -/
def claudeCommandPath (w : World) (cmd : Command) : String :=
  if cmd.nspace ≠ "" then
    w.paths.claudeCommandsDir ++ "/" ++ cmd.nspace ++ "/" ++ cmd.slug ++ ".md"
  else w.paths.claudeCommandsDir ++ "/" ++ cmd.slug ++ ".md"

/-- `codex_prompt_path`, rendered as a string. -/
def codexPromptPath (w : World) (cmd : Command) : String :=
  if cmd.nspace ≠ "" then
    w.paths.codexPromptsDir ++ "/" ++ cmd.nspace ++ "-" ++ cmd.slug ++ ".md"
  else w.paths.codexPromptsDir ++ "/" ++ cmd.slug ++ ".md"

/-- `write_claude_command` from formatters/commands.py. -/
def writeClaudeCommand (w : World) (cmd : Command) (dry_run : Bool) :
    String × World :=
  let target := claudeCommandPath w cmd
  let content := renderClaudeFrontmatter cmd ++ "\n\n" ++ cmd.body ++ "\n"
  if dry_run then ("Would write " ++ target, w)
  else
    ("Wrote " ++ target,
     { w with claudeFiles := dictInsert w.claudeFiles target content })

/-- `write_codex_prompt` from formatters/commands.py. -/
def writeCodexPrompt (w : World) (cmd : Command) (dry_run : Bool) :
    String × World :=
  let target := codexPromptPath w cmd
  let content := renderCodexFrontmatter cmd ++ "\n\n" ++ cmd.body ++ "\n"
  if dry_run then ("Would write " ++ target, w)
  else
    ("Wrote " ++ target,
     { w with codexFiles := dictInsert w.codexFiles target content })

/-- The loop body of `sync_commands`: one canonical command is written to
Claude and/or Codex according to its targets, threading the accumulated
action list and world. -/
def syncCommandsAux : List Command → Bool → List String × World →
    List String × World
  | [], _, st => st
  | cmd :: rest, dry_run, st =>
    let st1 :=
      if ToolName.claude ∈ commandTargets cmd then
        (st.1 ++ [(writeClaudeCommand st.2 cmd dry_run).1],
         (writeClaudeCommand st.2 cmd dry_run).2)
      else st
    let st2 :=
      if ToolName.codex ∈ commandTargets cmd then
        (st1.1 ++ [(writeCodexPrompt st1.2 cmd dry_run).1],
         (writeCodexPrompt st1.2 cmd dry_run).2)
      else st1
    syncCommandsAux rest dry_run st2

/-- `sync_commands` from formatters/commands.py: fans each canonical
command out to its target tools. -/
def syncCommands (w : World) (cmds : List Command) (dry_run : Bool) :
    List String × World :=
  syncCommandsAux cmds dry_run ([], w)

/-! ### Fix applier (sync_engine.apply_fixes) -/

/-- The canonical server one fixable MCP item contributes to a given
tool's batch: only `add-mcp`/`update-mcp` verbs for that tool resolve,
via first-match name lookup in the canonical server list. -/
def mcpServerForItem (canonicalServers : List McpServer) (tool : ToolName)
    (item : SyncItem) : Option McpServer :=
  match item.fix_action with
  | none => none
  | some fa =>
    if (fa.action = FixActionType.addMcp ∨
        fa.action = FixActionType.updateMcp) ∧ item.tool = tool then
      canonicalServers.find? (fun s => s.name = item.item_name)
    else none

/-- The canonical servers routed to one tool's writer by step 1 of
`apply_fixes`: MCP items carrying an `add-mcp` or `update-mcp` fix action
for that tool, resolved back to their canonical server records. -/
def mcpServersForTool (report : SyncReport) (tool : ToolName) :
    List McpServer :=
  (report.items.filter
      (fun i => i.content_type = "mcp" ∧ i.fix_action.isSome)).filterMap
    (mcpServerForItem report.canonical.mcp_servers tool)

/-- Step 1a of `apply_fixes`: the batched Copilot MCP write, invoked only
when the Copilot group is nonempty. -/
def afStepCopilotMcp (report : SyncReport) (dry_run : Bool)
    (st : List String × World) : List String × World :=
  let servers := mcpServersForTool report ToolName.copilot
  if servers = [] then st
  else
    let mw := writeCopilotMcp st.2 servers dry_run
    (st.1 ++ ["MCP/copilot: " ++ mw.1], mw.2)

/-- Step 1b of `apply_fixes`: the batched Codex MCP write. -/
def afStepCodexMcp (report : SyncReport) (dry_run : Bool)
    (st : List String × World) : List String × World :=
  let servers := mcpServersForTool report ToolName.codex
  if servers = [] then st
  else
    let mw := writeCodexMcp st.2 servers dry_run
    (st.1 ++ ["MCP/codex: " ++ mw.1], mw.2)

/-- Step 1c of `apply_fixes`: Claude MCP servers are reported as skipped
(no writer support), with no world mutation. -/
def afStepClaudeSkip (report : SyncReport)
    (st : List String × World) : List String × World :=
  let servers := mcpServersForTool report ToolName.claude
  if servers = [] then st
  else
    (st.1 ++ ["MCP/claude: Skipped " ++ toString servers.length
      ++ " servers (manual configuration required via Claude Desktop)"], st.2)

/-- Step 2a of `apply_fixes`: the Claude additionalDirectories fixer runs
when its config item is present and not synced. -/
def afStepClaudeDirs (report : SyncReport) (dry_run : Bool)
    (st : List String × World) : List String × World :=
  let its := report.items.filter
    (fun i => i.content_type = "config" ∧
      i.item_name = "claude-additional-dirs" ∧
      i.status ≠ SyncStatus.synced)
  if its = [] then st
  else
    let mw := fixClaudeAdditionalDirs st.2 dry_run
    (st.1 ++ [mw.1], mw.2)

/-- Step 2b of `apply_fixes`: the Copilot additionalDirectories fixer. -/
def afStepCopilotDirs (report : SyncReport) (dry_run : Bool)
    (st : List String × World) : List String × World :=
  let its := report.items.filter
    (fun i => i.content_type = "config" ∧
      i.item_name = "copilot-additional-dirs" ∧
      i.status ≠ SyncStatus.synced)
  if its = [] then st
  else
    let mw := fixCopilotAdditionalDirs st.2 dry_run
    (st.1 ++ [mw.1], mw.2)

/-- Step 3 of `apply_fixes`: the Claude skills symlink fixer. -/
def afStepSymlink (report : SyncReport) (dry_run : Bool)
    (st : List String × World) : List String × World :=
  let its := report.items.filter
    (fun i => i.content_type = "symlink" ∧ i.status ≠ SyncStatus.synced)
  if its = [] then st
  else
    let mw := fixClaudeSkillsSymlink st.2 dry_run
    (st.1 ++ [mw.1], mw.2)

/-- Step 4 of `apply_fixes`: the command sync runs only when canonical
commands exist and some command item is missing or drifted. -/
def afStepCommands (report : SyncReport) (dry_run : Bool)
    (st : List String × World) : List String × World :=
  if report.canonical.commands ≠ [] then
    let cmdIssues := report.items.filter
      (fun i => i.content_type = "command" ∧
        (i.status = SyncStatus.missing ∨ i.status = SyncStatus.drift))
    if cmdIssues = [] then st
    else
      let aw := syncCommands st.2 report.canonical.commands dry_run
      (st.1 ++ aw.1, aw.2)
  else st

/-- `apply_fixes` from sync_engine.py, over the explicit world state: the
steps run in the fixed source order, threading the accumulated action
descriptions and the world. -/
def applyFixes (w : World) (report : SyncReport) (dry_run : Bool) :
    List String × World :=
  afStepCommands report dry_run
    (afStepSymlink report dry_run
      (afStepCopilotDirs report dry_run
        (afStepClaudeDirs report dry_run
          (afStepClaudeSkip report
            (afStepCodexMcp report dry_run
              (afStepCopilotMcp report dry_run ([], w)))))))

/-! ## Concrete instances used by counterexamples and witnesses -/

/-- Default user configuration (empty ignore list, extras flagged). -/
def cfgDefault : UserCfg := {}

/-- Empty canonical state. -/
def canonEmpty : CanonicalState := { agents_dir := "/home/u/.agents" }

/-- Canonical HTTP server `Context7` enabled for Copilot. -/
def srvContext7 : McpServer :=
  { name := "Context7", server_type := .http, url := some "https://a.test",
    enabled_for := [ToolName.copilot] }

/-- Tool-side `context7` with no URL at all. -/
def tsNoUrl : McpServer := { name := "context7", server_type := .http }

/-- Canonical state holding only `Context7`. -/
def canonCtx : CanonicalState :=
  { agents_dir := "/home/u/.agents", mcp_servers := [srvContext7] }

/-- Copilot config whose only server is `context7` without a URL. -/
def tcsNoUrl : ToolConfigs :=
  [(ToolName.copilot, { tool := .copilot, mcp_servers := [tsNoUrl] })]

/-- Tool-side server `LegacyTool`, absent from canonical. -/
def tsLegacy : McpServer :=
  { name := "LegacyTool", server_type := .http, url := some "https://x.test" }

/-- Copilot config holding only the unmatched `LegacyTool`. -/
def tcsLegacy : ToolConfigs :=
  [(ToolName.copilot, { tool := .copilot, mcp_servers := [tsLegacy] })]

/-- A `vscode` entry in tool_configs holding `LegacyTool`. -/
def tcsVscode : ToolConfigs :=
  [(ToolName.vscode, { tool := .vscode, mcp_servers := [tsLegacy] })]

/-- Infrastructure checks that all pass. -/
def checksOk : InfraChecks :=
  { symlink := (true, "OK"), claude_dirs := (true, "OK"),
    copilot_dirs := (true, "OK") }

/-- A canonical skill named `alpha`. -/
def skillAlpha : Skill := { name := "alpha", path := "/home/u/.agents/skills/alpha" }

/-- Canonical state holding only the skill `alpha`. -/
def canonSkill : CanonicalState :=
  { agents_dir := "/home/u/.agents", skills := [skillAlpha] }

/-- Claude config whose scanner found the skill `alpha`. -/
def tcsSkill : ToolConfigs :=
  [(ToolName.claude,
    { tool := .claude, skills := [{ name := "alpha", path := "/c/alpha" }] })]

/-- Items list used by the report-count witness: one per status. -/
def itemsMixed : List SyncItem :=
  [ { content_type := "mcp", item_name := "a", tool := .copilot, status := .synced },
    { content_type := "mcp", item_name := "b", tool := .claude, status := .drift },
    { content_type := "skill", item_name := "c", tool := .claude, status := .missing },
    { content_type := "mcp", item_name := "d", tool := .codex, status := .extra },
    { content_type := "mcp", item_name := "e", tool := .codex, status := .notApplicable } ]

/-- A report over `itemsMixed`. -/
def reportMixed : SyncReport := { canonical := canonEmpty, items := itemsMixed }

/-- A second report with the same items but different canonical state. -/
def reportMixed2 : SyncReport := { canonical := canonCtx, items := itemsMixed }

/-- Canonical command `opsx/deploy` targeting Codex only. -/
def cmdDeploy : Command :=
  { name := "Deploy", slug := "deploy", nspace := "opsx",
    sync_to := [ToolName.codex], body_hash := "h1" }

/-- Canonical state holding only `opsx/deploy`. -/
def canonDeploy : CanonicalState :=
  { agents_dir := "/home/u/.agents", commands := [cmdDeploy] }

/-- Tool configs where Codex has no commands (and Claude exists too). -/
def tcsCodexEmpty : ToolConfigs :=
  [(ToolName.claude, { tool := .claude }), (ToolName.codex, { tool := .codex })]

/-- Product workflow `LoadSEERNext`, plugin not installed. -/
def wfLoadseer : ProductWorkflow :=
  { name := "LoadSEERNext", path := "/home/u/.agents/LoadSEERNext" }

/-- A plugin whose name shares no long token with `LoadSEERNext`. -/
def pluginOther : Plugin := { name := "contest-helper", path := "/hub/contest-helper" }

/-- A plugin matching `LoadSEERNext` by the `next` token. -/
def pluginLoadseer : Plugin :=
  { name := "loadseer-next-tools", path := "/hub/loadseer-next-tools" }

/-- Canonical state for the plugin-matching witness. -/
def canonPlugins : CanonicalState :=
  { agents_dir := "/home/u/.agents", product_workflows := [wfLoadseer],
    available_plugins := [pluginOther, pluginLoadseer] }

/-- Tool configs containing a Copilot entry. -/
def tcsCopilotOnly : ToolConfigs :=
  [(ToolName.copilot, { tool := .copilot })]

/-- A missing MCP item carrying an `add-mcp` fix action for Copilot. -/
def itemAddMcp : SyncItem :=
  { content_type := "mcp", item_name := "Context7", tool := .copilot,
    status := .missing,
    detail := "Canonical server not found in copilot config",
    fix_action := some
      { action := .addMcp, tool := .copilot, content_type := "mcp",
        target := "Context7", detail := "Add Context7 to copilot MCP config" } }

/-- An extra MCP item carrying the advisory `remove-mcp` fix action. -/
def itemRemoveMcp : SyncItem :=
  { content_type := "mcp", item_name := "LegacyTool", tool := .copilot,
    status := .extra,
    detail := "Server in copilot not in canonical mcp.json",
    fix_action := some
      { action := .removeMcp, tool := .copilot, content_type := "mcp",
        target := "LegacyTool",
        detail := "Add LegacyTool to canonical mcp.json or remove from copilot" } }

/-- A report with one `add-mcp` item and its canonical server. -/
def reportAdd : SyncReport := { canonical := canonCtx, items := [itemAddMcp] }

/-- A report whose only MCP fix action is `remove-mcp`. -/
def reportRemove : SyncReport := { canonical := canonEmpty, items := [itemRemoveMcp] }

/-- Concrete path constants for the world witness. -/
def pathsEx : Paths :=
  { agentsDir := "/home/u/.agents",
    canonicalSkillsDir := "/home/u/.agents/skills",
    claudeSymlinkSkills := "/home/u/.agents/.claude/skills",
    copilotMcpConfigJson := "/home/u/.copilot/mcp-config.json",
    codexConfigToml := "/home/u/.codex/config.toml",
    claudeCommandsDir := "/home/u/.claude/commands",
    codexPromptsDir := "/home/u/.codex/prompts" }

/-- A concrete world in which all three infrastructure checks pass. -/
def worldOk : World :=
  { paths := pathsEx,
    claudeSettingsDirs := ["/home/u/.agents/skills"],
    copilotConfigDirs := ["/home/u/.agents/skills"],
    symlinkExists := true, symlinkIsJunction := true, symlinkIsDir := true,
    symlinkResolved := "/home/u/.agents/skills",
    pathExists := fun _ => true,
    pathResolve := fun s => s,
    canonicalSkillsResolved := "/home/u/.agents/skills",
    agentsDirResolved := "/home/u/.agents",
    canonicalSkillsExists := true,
    skillCount := 2,
    copilotMcpExists := false, copilotMcpServers := [],
    codexConfigExists := false, codexMcpSections := [],
    claudeFiles := [], codexFiles := [] }

/-- The extra item produced for `LegacyTool` on the vscode tool entry. -/
def itemVscodeExtra : SyncItem :=
  { content_type := "mcp", item_name := "LegacyTool", tool := .vscode,
    status := .extra,
    detail := "Server in vscode not in canonical mcp.json",
    fix_action := some
      { action := .removeMcp, tool := .vscode, content_type := "mcp",
        target := "LegacyTool",
        detail := "Add LegacyTool to canonical mcp.json or remove from vscode" } }

/-- The same world with no Claude additionalDirectories configured. -/
def worldBad : World := { worldOk with claudeSettingsDirs := [] }

/-- A workflow whose name shares no long token with any plugin. -/
def wfNoMatch : ProductWorkflow := { name := "zz", path := "/home/u/.agents/zz" }

/-- The synced skill item produced for `alpha` on Claude. -/
def itemSkillSynced : SyncItem :=
  { content_type := "skill", item_name := "alpha", tool := .claude,
    status := .synced, detail := "Accessible" }

/-! # Theorems -/

/-- Characters kept by the normalizer are fixed by the lowercasing map. -/
theorem pyLowerChar_of_mcpKeep {c : Char} (h : mcpKeep c = true) :
    pyLowerChar c = c := by
  simp only [mcpKeep, decide_eq_true_eq] at h
  unfold pyLowerChar
  rw [if_neg]
  omega

/-- Every character of a normalized name is in `[a-z0-9]`. -/
theorem mcpKeep_of_mem_normalize {s : String} {c : Char}
    (h : c ∈ (mcpNameNormalize s).data) : mcpKeep c = true := by
  unfold mcpNameNormalize at h
  exact (List.mem_filter.mp h).2

/-- The normalizer is idempotent. -/
theorem mcpNameNormalize_idem (s : String) :
    mcpNameNormalize (mcpNameNormalize s) = mcpNameNormalize s := by
  have hmem : ∀ c ∈ (mcpNameNormalize s).data, mcpKeep c = true :=
    fun c hc => mcpKeep_of_mem_normalize hc
  conv_lhs => rw [mcpNameNormalize]
  have hmap : (mcpNameNormalize s).data.map pyLowerChar
      = (mcpNameNormalize s).data := by
    conv_rhs => rw [← List.map_id (mcpNameNormalize s).data]
    exact List.map_congr_left (fun c hc => pyLowerChar_of_mcpKeep (hmem c hc))
  rw [hmap, List.filter_eq_self.mpr hmem]

/-- C5: the MCP name normalizer is total (it is a Lean function, defined on
every string), returns the input lowercased with every character outside
`[a-z0-9]` removed (so every output character is in that class), is
idempotent, and maps "My-Server", "my_server" and "MYSERVER" to
"myserver". -/
theorem C5_normalizer_total_idempotent :
    (∀ s : String,
      mcpNameNormalize s = String.mk ((s.data.map pyLowerChar).filter mcpKeep))
    ∧ (∀ s : String, ∀ c ∈ (mcpNameNormalize s).data, mcpKeep c = true)
    ∧ (∀ s : String, mcpNameNormalize (mcpNameNormalize s) = mcpNameNormalize s)
    ∧ mcpNameNormalize "My-Server" = "myserver"
    ∧ mcpNameNormalize "my_server" = "myserver"
    ∧ mcpNameNormalize "MYSERVER" = "myserver" := by
  refine ⟨fun s => rfl, fun s c hc => mcpKeep_of_mem_normalize hc,
    mcpNameNormalize_idem, ?_, ?_, ?_⟩ <;> decide

/-- Witness for C5 at concrete inputs. -/
theorem C5_normalizer_total_idempotent_witness :
    mcpKeep 'm' = true
    ∧ mcpNameNormalize (mcpNameNormalize "My-Server") = mcpNameNormalize "My-Server" :=
  ⟨C5_normalizer_total_idempotent.2.1 "My-Server" 'm' (by decide),
   C5_normalizer_total_idempotent.2.2.1 "My-Server"⟩

/-- Summing the four status-filtered counts never exceeds the item count. -/
theorem statusCounts_le (l : List SyncItem) :
    (l.filter (fun i => i.status = SyncStatus.synced)).length
      + (l.filter (fun i => i.status = SyncStatus.drift)).length
      + (l.filter (fun i => i.status = SyncStatus.missing)).length
      + (l.filter (fun i => i.status = SyncStatus.extra)).length
      ≤ l.length := by
  induction l with
  | nil => simp
  | cons i t ih =>
    simp only [List.filter_cons, List.length_cons]
    cases h : i.status <;> simp [h] <;> omega

/-- C4: report counts are consistent — the four primary counts sum to at
most the number of items (the rest are not_applicable), overall_status is
`drift` exactly when some of the drift/missing/extra counts are nonzero
and `synced` otherwise, and overall_status is a pure function of the item
list. -/
theorem C4_report_counts (r : SyncReport) :
    r.synced_count + r.drift_count + r.missing_count + r.extra_count
      ≤ r.items.length
    ∧ (r.overall_status = SyncStatus.drift ↔
        0 < r.drift_count + r.missing_count + r.extra_count)
    ∧ (r.overall_status ≠ SyncStatus.drift →
        r.overall_status = SyncStatus.synced)
    ∧ (∀ r' : SyncReport, r.items = r'.items →
        r.overall_status = r'.overall_status) := by
  refine ⟨statusCounts_le r.items, ?_, ?_, ?_⟩
  · unfold SyncReport.overall_status
    split
    · rename_i h
      simp only [true_iff]
      omega
    · rename_i h
      push_neg at h
      obtain ⟨h1, h2, h3⟩ := h
      constructor
      · intro hs
        exact absurd hs (by simp)
      · intro hpos
        omega
  · unfold SyncReport.overall_status
    split <;> simp
  · intro r' hit
    unfold SyncReport.overall_status SyncReport.drift_count
      SyncReport.missing_count SyncReport.extra_count
    rw [hit]

/-- Witness for C4 at a concrete report: the count bound holds, and a
report with the same items but a different canonical state has the same
overall status. -/
theorem C4_report_counts_witness :
    reportMixed.synced_count + reportMixed.drift_count
      + reportMixed.missing_count + reportMixed.extra_count
      ≤ reportMixed.items.length
    ∧ reportMixed.overall_status = reportMixed2.overall_status :=
  ⟨(C4_report_counts reportMixed).1,
   (C4_report_counts reportMixed).2.2.2 reportMixed2 rfl⟩

/-- A matched-pair item is either synced with no fix action and empty
detail, or drifted with an `update-mcp` fix action. -/
theorem mcpMatchedItem_cases (srv : McpServer) (tool : ToolName)
    (ts : McpServer) :
    ((mcpMatchedItem srv tool ts).status = SyncStatus.synced
      ∧ (mcpMatchedItem srv tool ts).fix_action = none
      ∧ (mcpMatchedItem srv tool ts).detail = "")
    ∨ ((mcpMatchedItem srv tool ts).status = SyncStatus.drift
      ∧ fixVerb (mcpMatchedItem srv tool ts) = some FixActionType.updateMcp) := by
  unfold mcpMatchedItem
  split
  · left; exact ⟨rfl, rfl, rfl⟩
  · right; exact ⟨rfl, rfl⟩

/-- Pass-1 items of the MCP comparator are never `extra`. -/
theorem mcpToolItem_not_extra {tcs : ToolConfigs} {srv : McpServer}
    {tool : ToolName} {it : SyncItem}
    (h : mcpToolItem tcs srv tool = some it) :
    it.status ≠ SyncStatus.extra := by
  unfold mcpToolItem at h
  split at h
  · exact absurd h (by simp)
  · split at h
    · obtain rfl := Option.some_injective _ h
      simp
    · split at h
      · obtain rfl := Option.some_injective _ h
        simp
      · obtain rfl := Option.some_injective _ h
        unfold mcpMatchedItem
        split <;> simp

/-- Pass-1 items carry the tool they were compared against. -/
theorem mcpToolItem_tool {tcs : ToolConfigs} {srv : McpServer}
    {tool : ToolName} {it : SyncItem}
    (h : mcpToolItem tcs srv tool = some it) : it.tool = tool := by
  unfold mcpToolItem at h
  split at h
  · exact absurd h (by simp)
  · split at h
    · obtain rfl := Option.some_injective _ h
      rfl
    · split at h
      · obtain rfl := Option.some_injective _ h
        rfl
      · obtain rfl := Option.some_injective _ h
        unfold mcpMatchedItem
        split <;> rfl

/-- Pass-1 items are never synced-with-fix-action. -/
theorem mcpToolItem_synced_no_fix {tcs : ToolConfigs} {srv : McpServer}
    {tool : ToolName} {it : SyncItem}
    (h : mcpToolItem tcs srv tool = some it)
    (hs : it.status = SyncStatus.synced) : it.fix_action = none := by
  unfold mcpToolItem at h
  split at h
  · exact absurd h (by simp)
  · split at h
    · obtain rfl := Option.some_injective _ h
      simp at hs
    · split at h
      · obtain rfl := Option.some_injective _ h
        simp at hs
      · obtain rfl := Option.some_injective _ h
        unfold mcpMatchedItem at hs ⊢
        split at hs <;> simp_all

/-- Pass-2 items are `extra`, carry the scanned tool, and carry the
advisory `remove-mcp` fix action. -/
theorem mcpExtraItem_props {cfg : UserCfg} {cn ig : List String}
    {tool : ToolName} {ts : McpServer} {it : SyncItem}
    (h : mcpExtraItem cfg cn ig tool ts = some it) :
    it.status = SyncStatus.extra
    ∧ fixVerb it = some FixActionType.removeMcp
    ∧ it.tool = tool := by
  unfold mcpExtraItem at h
  split at h
  · exact absurd h (by simp)
  · split at h
    · exact absurd h (by simp)
    · obtain rfl := Option.some_injective _ h
      exact ⟨rfl, rfl, rfl⟩

/-- Every item of the MCP comparator arises from pass 1 (one of the three
fixed tools) or pass 2 (an extra server scan). -/
theorem mem_compareMcp {cfg : UserCfg} {canonical : CanonicalState}
    {tcs : ToolConfigs} {item : SyncItem}
    (h : item ∈ compareMcp cfg canonical tcs) :
    (∃ srv tool, mcpToolItem tcs srv tool = some item ∧
      tool ∈ [ToolName.copilot, ToolName.claude, ToolName.codex])
    ∨ (∃ cn ig tool ts, mcpExtraItem cfg cn ig tool ts = some item) := by
  unfold compareMcp at h
  rcases List.mem_append.mp h with h1 | h2
  · left
    unfold mcpCanonicalItems at h1
    obtain ⟨srv, _, hit⟩ := List.mem_flatMap.mp h1
    obtain ⟨tool, htool, heq⟩ := List.mem_filterMap.mp hit
    exact ⟨srv, tool, heq, htool⟩
  · right
    unfold mcpExtraItems at h2
    obtain ⟨p, _, hit⟩ := List.mem_flatMap.mp h2
    obtain ⟨ts, _, heq⟩ := List.mem_filterMap.mp hit
    exact ⟨_, _, p.1, ts, heq⟩

/-- C1 (amended): every `extra` item produced by the MCP comparator
carries a fix action, and its verb is always the advisory `remove-mcp`
(which the fix applier never applies) — rather than carrying no fix
action as the claim states. -/
theorem C1_extra_items_carry_remove_mcp (cfg : UserCfg)
    (canonical : CanonicalState) (tcs : ToolConfigs) :
    ∀ item ∈ compareMcp cfg canonical tcs,
      item.status = SyncStatus.extra →
      fixVerb item = some FixActionType.removeMcp := by
  intro item hmem hst
  rcases mem_compareMcp hmem with ⟨srv, tool, heq, _⟩ | ⟨cn, ig, tool, ts, heq⟩
  · exact absurd hst (mcpToolItem_not_extra heq)
  · exact (mcpExtraItem_props heq).2.1

/-- Witness for C1 (amended) at the `LegacyTool` scenario. -/
theorem C1_extra_items_carry_remove_mcp_witness :
    fixVerb itemRemoveMcp = some FixActionType.removeMcp :=
  C1_extra_items_carry_remove_mcp cfgDefault canonEmpty tcsLegacy
    itemRemoveMcp (by decide) (by decide)

/-- Counterexample to C1 as stated: the unmatched tool-side server
`LegacyTool` (ignore-list empty, ignore-extra false) yields an `extra`
item whose fix action is present (verb `remove-mcp`), not `None`. -/
theorem C1_counterexample :
    (compareMcp cfgDefault canonEmpty tcsLegacy).map
      (fun i => (i.status, i.fix_action.isSome, fixVerb i))
      = [(SyncStatus.extra, true, some FixActionType.removeMcp)] := by
  decide

/-- C10: any MCP item emitted for a tool identity outside the three fixed
ones (copilot, claude, codex) — e.g. a `vscode` entry of tool_configs —
has status `extra`: the canonical pass iterates only the three fixed
tools, while the extra pass iterates every tool_configs entry. -/
theorem C10_nonstandard_tools_only_extra (cfg : UserCfg)
    (canonical : CanonicalState) (tcs : ToolConfigs) :
    ∀ item ∈ compareMcp cfg canonical tcs,
      item.tool ∉ [ToolName.copilot, ToolName.claude, ToolName.codex] →
      item.status = SyncStatus.extra := by
  intro item hmem hnot
  rcases mem_compareMcp hmem with ⟨srv, tool, heq, htool⟩ | ⟨cn, ig, tool, ts, heq⟩
  · rw [mcpToolItem_tool heq] at hnot
    exact absurd htool hnot
  · exact (mcpExtraItem_props heq).1

/-- Witness for C10: the vscode entry's `LegacyTool` item is `extra`. -/
theorem C10_nonstandard_tools_only_extra_witness :
    itemVscodeExtra.status = SyncStatus.extra :=
  C10_nonstandard_tools_only_extra cfgDefault canonEmpty tcsVscode
    itemVscodeExtra (by decide) (by decide)

/-- C3 (amended): for a matched canonical/tool server pair only `url`,
`command` and `args` feed the drift reasons; for each of the three fields
a value present on only one side is not a mismatch — in particular a
tool-side server with no URL produces no URL mismatch, and when neither
`command` nor `args` mismatch either, the item is `synced` with no fix
action (not `drift` as the claim states); when any mutual mismatch
exists, the item is `drift` with fix verb `update-mcp`. -/
theorem C3_mcp_field_comparison (srv ts srv2 ts2 : McpServer)
    (tool : ToolName) :
    (srv2.url = srv.url → srv2.command = srv.command → srv2.args = srv.args →
      ts2.url = ts.url → ts2.command = ts.command → ts2.args = ts.args →
      mcpDriftReasons srv2 ts2 = mcpDriftReasons srv ts)
    ∧ (mcpDriftReasons srv ts = [] ↔
        ¬(optStrTruthy srv.url = true ∧ optStrTruthy ts.url = true
            ∧ srv.url ≠ ts.url)
        ∧ ¬(optStrTruthy srv.command = true ∧ optStrTruthy ts.command = true
            ∧ srv.command ≠ ts.command)
        ∧ ¬(srv.args ≠ [] ∧ ts.args ≠ [] ∧ srv.args ≠ ts.args))
    ∧ (ts.url = none →
        ¬(optStrTruthy srv.command = true ∧ optStrTruthy ts.command = true
            ∧ srv.command ≠ ts.command) →
        ¬(srv.args ≠ [] ∧ ts.args ≠ [] ∧ srv.args ≠ ts.args) →
        (mcpMatchedItem srv tool ts).status = SyncStatus.synced
        ∧ (mcpMatchedItem srv tool ts).fix_action = none)
    ∧ (mcpDriftReasons srv ts ≠ [] →
        (mcpMatchedItem srv tool ts).status = SyncStatus.drift
        ∧ fixVerb (mcpMatchedItem srv tool ts)
            = some FixActionType.updateMcp) := by
  refine ⟨?_, ?_, ?_, ?_⟩
  · intro h1 h2 h3 h4 h5 h6
    unfold mcpDriftReasons
    rw [h1, h2, h3, h4, h5, h6]
  · unfold mcpDriftReasons
    split_ifs <;> simp_all
  · intro hu hc ha
    have hre : mcpDriftReasons srv ts = [] := by
      unfold mcpDriftReasons
      rw [if_neg (by rw [hu]; simp [optStrTruthy]), if_neg (by simp_all),
        if_neg (by simp_all)]
      rfl
    unfold mcpMatchedItem
    rw [if_pos hre]
    exact ⟨rfl, rfl⟩
  · intro hne
    unfold mcpMatchedItem
    rw [if_neg hne]
    exact ⟨rfl, rfl⟩

/-- Witness for C3 (amended) at the `Context7`-without-URL scenario. -/
theorem C3_mcp_field_comparison_witness :
    (mcpMatchedItem srvContext7 ToolName.copilot tsNoUrl).status
      = SyncStatus.synced
    ∧ (mcpMatchedItem srvContext7 ToolName.copilot tsNoUrl).fix_action
      = none :=
  (C3_mcp_field_comparison srvContext7 tsNoUrl srvContext7 tsNoUrl
    ToolName.copilot).2.2.1 (by decide) (by decide) (by decide)

/-- Counterexample to C3 as stated: `Context7` has a canonical URL, the
matched Copilot-side `context7` has no URL, and the emitted item is
`synced` with no fix action — a one-sided URL is not a mismatch. -/
theorem C3_counterexample :
    (compareMcp cfgDefault canonCtx tcsNoUrl).map
      (fun i => (i.status, i.fix_action))
      = [(SyncStatus.synced, none)] := by
  decide

/-- MCP items: synced implies no fix action. -/
theorem compareMcp_synced_no_fix {cfg : UserCfg} {canonical : CanonicalState}
    {tcs : ToolConfigs} :
    ∀ item ∈ compareMcp cfg canonical tcs,
      item.status = SyncStatus.synced → item.fix_action = none := by
  intro item hmem hs
  rcases mem_compareMcp hmem with ⟨srv, tool, heq, _⟩ | ⟨cn, ig, tool, ts, heq⟩
  · exact mcpToolItem_synced_no_fix heq hs
  · have hx := (mcpExtraItem_props heq).1
    rw [hx] at hs
    cases hs

/-- Infrastructure items: synced implies no fix action. -/
theorem skillsInfraItems_synced_no_fix {checks : InfraChecks} :
    ∀ item ∈ skillsInfraItems checks,
      item.status = SyncStatus.synced → item.fix_action = none := by
  intro item hmem hs
  unfold skillsInfraItems at hmem
  simp only [List.mem_cons, List.not_mem_nil, or_false] at hmem
  rcases hmem with rfl | rfl | rfl
  · by_cases hc : checks.symlink.1 <;> simp [hc] at hs ⊢
  · by_cases hc : checks.claude_dirs.1 <;> simp [hc] at hs ⊢
  · by_cases hc : checks.copilot_dirs.1 <;> simp [hc] at hs ⊢

/-- Per-skill items: synced implies no fix action (skill items in fact
never carry a fix action). -/
theorem skillItem_no_fix (checks : InfraChecks) (skill : Skill)
    (tool : ToolName) (tc : ToolConfig) :
    (skillItem checks skill tool tc).fix_action = none := by
  unfold skillItem
  split
  · rfl
  · split <;> rfl

/-- Skills comparator: synced implies no fix action. -/
theorem compareSkills_synced_no_fix {checks : InfraChecks}
    {canonical : CanonicalState} {tcs : ToolConfigs} :
    ∀ item ∈ compareSkills checks canonical tcs,
      item.status = SyncStatus.synced → item.fix_action = none := by
  intro item hmem hs
  unfold compareSkills at hmem
  rcases List.mem_append.mp hmem with h1 | h2
  · exact skillsInfraItems_synced_no_fix item h1 hs
  · obtain ⟨skill, _, hit⟩ := List.mem_flatMap.mp h2
    obtain ⟨p, _, heq⟩ := List.mem_map.mp hit
    rw [← heq]
    exact skillItem_no_fix checks skill p.1 p.2

/-- Pairwise command items: synced implies no fix action. -/
theorem pairwiseItemFor_synced_no_fix {claudeCmds codexCmds : List Command}
    {k : String × String} {it : SyncItem}
    (h : pairwiseItemFor claudeCmds codexCmds k = some it)
    (hs : it.status = SyncStatus.synced) : it.fix_action = none := by
  unfold pairwiseItemFor at h
  split at h
  · split at h
    · obtain rfl := Option.some_injective _ h
      rfl
    · obtain rfl := Option.some_injective _ h
      cases hs
  · obtain rfl := Option.some_injective _ h
    cases hs
  · obtain rfl := Option.some_injective _ h
    cases hs
  · cases h

/-- Canonical-mode command items: synced implies no fix action. -/
theorem commandItemFor_synced_no_fix {cmd : Command} {tool : ToolName}
    {tc : ToolConfig}
    (hs : (commandItemFor cmd tool tc).status = SyncStatus.synced) :
    (commandItemFor cmd tool tc).fix_action = none := by
  unfold commandItemFor at hs ⊢
  split at hs
  · cases hs
  · unfold commandItemFound at hs ⊢
    split at hs <;> simp_all

/-- Commands comparator: synced implies no fix action. -/
theorem compareCommands_synced_no_fix {canonical : CanonicalState}
    {tcs : ToolConfigs} :
    ∀ item ∈ compareCommands canonical tcs,
      item.status = SyncStatus.synced → item.fix_action = none := by
  intro item hmem hs
  unfold compareCommands at hmem
  split at hmem
  · split at hmem
    · obtain ⟨k, _, heq⟩ := List.mem_filterMap.mp hmem
      exact pairwiseItemFor_synced_no_fix heq hs
    · cases hmem
  · obtain ⟨cmd, _, hit⟩ := List.mem_flatMap.mp hmem
    unfold commandItemsFor at hit
    obtain ⟨tool, _, heq⟩ := List.mem_filterMap.mp hit
    obtain ⟨tc, _, hmap⟩ := Option.map_eq_some'.mp heq
    rw [← hmap] at hs ⊢
    exact commandItemFor_synced_no_fix hs

/-- Plugin items: synced implies no fix action. -/
theorem comparePlugins_synced_no_fix {canonical : CanonicalState}
    {tcs : ToolConfigs} :
    ∀ item ∈ comparePlugins canonical tcs,
      item.status = SyncStatus.synced → item.fix_action = none := by
  intro item hmem hs
  unfold comparePlugins at hmem
  split at hmem
  · obtain ⟨w, _, hit⟩ := List.mem_flatMap.mp hmem
    unfold pluginItemsFor at hit
    split at hit
    · cases hit
    · split at hit
      · simp only [List.mem_singleton] at hit
        rw [hit]
      · simp only [List.mem_singleton] at hit
        rw [hit] at hs
        cases hs
  · cases hmem

/-- C2 (amended): in every report built by `build_sync_report`, a synced
item carries no fix action; the claim's second clause (`detail` empty) is
false — synced items may carry a nonempty detail (e.g. "Accessible", the
infra-check messages, the plugin version). -/
theorem C2_synced_items_no_fix (cfg : UserCfg) (checks : InfraChecks)
    (canonical : CanonicalState) (tcs : ToolConfigs) :
    ∀ item ∈ (buildSyncReport cfg checks canonical tcs).items,
      item.status = SyncStatus.synced → item.fix_action = none := by
  intro item hmem hs
  unfold buildSyncReport at hmem
  simp only [List.append_assoc, List.mem_append] at hmem
  rcases hmem with h | h | h | h
  · exact compareMcp_synced_no_fix item h hs
  · exact compareSkills_synced_no_fix item h hs
  · exact compareCommands_synced_no_fix item h hs
  · exact comparePlugins_synced_no_fix item h hs

/-- Witness for C2 (amended): the synced skill item of a concrete report
has no fix action. -/
theorem C2_synced_items_no_fix_witness : itemSkillSynced.fix_action = none :=
  C2_synced_items_no_fix cfgDefault checksOk canonSkill tcsSkill
    itemSkillSynced (by decide) (by decide)

/-- Counterexample to C2 as stated: with all infrastructure checks passing
and skill `alpha` visible to Claude, the report's synced items carry the
nonempty details "OK" (three infrastructure items) and "Accessible" (the
skill item). -/
theorem C2_counterexample :
    ((buildSyncReport cfgDefault checksOk canonSkill tcsSkill).items.filter
        (fun i => i.status = SyncStatus.synced ∧ i.detail ≠ "")).map
      (fun i => i.detail) = ["OK", "OK", "OK", "Accessible"] := by
  decide

/-- Canonical-mode command items carry the target tool. -/
theorem commandItemFor_tool (cmd : Command) (tool : ToolName)
    (tc : ToolConfig) : (commandItemFor cmd tool tc).tool = tool := by
  unfold commandItemFor
  split
  · rfl
  · unfold commandItemFound
    split <;> rfl

/-- C6: with canonical commands present, the comparator is exactly the
per-command fan-out over that command's sync targets (claude and codex
when `sync_to` is empty): items arise only for tools in the target list
(a tool outside `sync_to` is not evaluated for that command), and for a
targeted tool with a config entry the item is `missing` with fix verb
`write-command` when no (namespace, slug) match exists, `synced` with no
fix action on an equal body hash, and `drift` with fix verb
`overwrite-command` on a differing body hash. -/
theorem C6_commands_canonical_mode (canonical : CanonicalState)
    (tcs : ToolConfigs) (hne : canonical.commands ≠ []) :
    compareCommands canonical tcs
      = canonical.commands.flatMap (commandItemsFor tcs)
    ∧ (∀ cmd : Command, ∀ item ∈ commandItemsFor tcs cmd,
        item.tool ∈ commandTargets cmd)
    ∧ (∀ cmd : Command, ∀ tool tc, lookupTc tcs tool = some tc →
        ((∀ c ∈ tc.commands, ¬(c.nspace = cmd.nspace ∧ c.slug = cmd.slug)) →
          (commandItemFor cmd tool tc).status = SyncStatus.missing
          ∧ fixVerb (commandItemFor cmd tool tc)
              = some FixActionType.writeCommand)
        ∧ (∀ tool_cmd, tc.commands.find?
              (fun c => c.nspace = cmd.nspace ∧ c.slug = cmd.slug)
              = some tool_cmd →
            (cmd.body_hash = tool_cmd.body_hash →
              (commandItemFor cmd tool tc).status = SyncStatus.synced
              ∧ (commandItemFor cmd tool tc).fix_action = none)
            ∧ (cmd.body_hash ≠ tool_cmd.body_hash →
              (commandItemFor cmd tool tc).status = SyncStatus.drift
              ∧ fixVerb (commandItemFor cmd tool tc)
                  = some FixActionType.overwriteCommand))) := by
  refine ⟨?_, ?_, ?_⟩
  · unfold compareCommands
    rw [if_neg hne]
  · intro cmd item hmem
    unfold commandItemsFor at hmem
    obtain ⟨tool, htool, heq⟩ := List.mem_filterMap.mp hmem
    obtain ⟨tc, _, hmap⟩ := Option.map_eq_some'.mp heq
    rw [← hmap, commandItemFor_tool]
    exact htool
  · intro cmd tool tc _
    constructor
    · intro hnone
      have hfind : tc.commands.find?
          (fun c => decide (c.nspace = cmd.nspace ∧ c.slug = cmd.slug))
          = none := by
        rw [List.find?_eq_none]
        intro c hc
        simp only [decide_eq_true_eq]
        exact hnone c hc
      unfold commandItemFor
      rw [hfind]
      exact ⟨rfl, rfl⟩
    · intro tool_cmd hfind
      have hred : commandItemFor cmd tool tc
          = commandItemFound cmd tool tool_cmd := by
        unfold commandItemFor
        rw [hfind]
      rw [hred]
      constructor
      · intro hh
        unfold commandItemFound
        rw [if_pos hh]
        exact ⟨rfl, rfl⟩
      · intro hh
        unfold commandItemFound
        rw [if_neg hh]
        exact ⟨rfl, rfl⟩

/-- Witness for C6 at the `opsx/deploy`-targets-codex-only scenario. -/
theorem C6_commands_canonical_mode_witness :
    (commandItemFor cmdDeploy ToolName.codex { tool := .codex }).status
      = SyncStatus.missing
    ∧ fixVerb (commandItemFor cmdDeploy ToolName.codex { tool := .codex })
      = some FixActionType.writeCommand :=
  ((C6_commands_canonical_mode canonDeploy tcsCodexEmpty
      (by decide)).2.2 cmdDeploy ToolName.codex { tool := .codex }
      (by decide)).1 (by decide)

/-- `find?` over a splitting where the prefix rejects the predicate finds
the middle element. -/
theorem find?_append_cons {α : Type} (p : α → Bool) (pre : List α) (a : α)
    (post : List α) (hpre : ∀ x ∈ pre, p x = false) (ha : p a = true) :
    (pre ++ a :: post).find? p = some a := by
  induction pre with
  | nil =>
    simp only [List.nil_append]
    exact List.find?_cons_of_pos _ ha
  | cons x xs ih =>
    simp only [List.cons_append]
    rw [List.find?_cons_of_neg]
    · exact ih (fun y hy => hpre y (List.mem_cons_of_mem x hy))
    · simp [hpre x (List.mem_cons_self x xs)]

/-- C7: with a Copilot entry present, the plugin comparator is the
per-workflow fan-out; a workflow matches a plugin exactly when some
hyphen-delimited token of its (substituted, lowercased) name longer than
3 characters occurs in the lowercased plugin name; only the first
matching plugin in scan order is used, and a workflow with no matching
plugin contributes no item at all. -/
theorem C7_plugin_matching (canonical : CanonicalState) (tcs : ToolConfigs)
    (hc : containsTool tcs ToolName.copilot = true) :
    comparePlugins canonical tcs
      = canonical.product_workflows.flatMap
          (pluginItemsFor canonical.available_plugins)
    ∧ (∀ (w : ProductWorkflow) (p : Plugin), tokenMatch w p = true ↔
        ∃ t ∈ productTokens w, 3 < t.length
          ∧ pyInStr t (pyLower p.name) = true)
    ∧ (∀ w : ProductWorkflow,
        (∀ p ∈ canonical.available_plugins, tokenMatch w p = false) →
        pluginItemsFor canonical.available_plugins w = [])
    ∧ (∀ (w : ProductWorkflow) (pre : List Plugin) (p : Plugin)
          (post : List Plugin),
        canonical.available_plugins = pre ++ p :: post →
        (∀ q ∈ pre, tokenMatch w q = false) → tokenMatch w p = true →
        matchingPlugin w canonical.available_plugins = some p
        ∧ ∀ item ∈ pluginItemsFor canonical.available_plugins w,
            item.item_name = p.name) := by
  refine ⟨?_, ?_, ?_, ?_⟩
  · unfold comparePlugins
    rw [if_pos hc]
  · intro w p
    unfold tokenMatch
    rw [List.any_eq_true]
    constructor
    · rintro ⟨t, ht, hp⟩
      rw [Bool.and_eq_true, decide_eq_true_eq] at hp
      exact ⟨t, ht, hp.1, hp.2⟩
    · rintro ⟨t, ht, hlen, hin⟩
      refine ⟨t, ht, ?_⟩
      rw [Bool.and_eq_true, decide_eq_true_eq]
      exact ⟨hlen, hin⟩
  · intro w hnone
    have hmp : matchingPlugin w canonical.available_plugins = none := by
      unfold matchingPlugin
      rw [List.find?_eq_none]
      intro p hp
      simp [hnone p hp]
    unfold pluginItemsFor
    rw [hmp]
  · intro w pre p post hsplit hpre hp
    have hmp : matchingPlugin w canonical.available_plugins = some p := by
      unfold matchingPlugin
      rw [hsplit]
      exact find?_append_cons _ pre p post hpre hp
    refine ⟨hmp, ?_⟩
    intro item hmem
    unfold pluginItemsFor at hmem
    rw [hmp] at hmem
    by_cases hi : w.copilot_plugin_installed = true <;>
      simp [hi] at hmem <;> rw [hmem]

/-- Witness for C7 at the `LoadSEERNext` scenario: the first matching
plugin wins over the non-matching `contest-helper`, and a workflow with
no matching plugin yields no items. -/
theorem C7_plugin_matching_witness :
    matchingPlugin wfLoadseer canonPlugins.available_plugins
      = some pluginLoadseer
    ∧ pluginItemsFor canonPlugins.available_plugins wfNoMatch = [] :=
  ⟨((C7_plugin_matching canonPlugins tcsCopilotOnly (by decide)).2.2.2
      wfLoadseer [pluginOther] pluginLoadseer [] (by decide) (by decide)
      (by decide)).1,
   (C7_plugin_matching canonPlugins tcsCopilotOnly (by decide)).2.2.1
      wfNoMatch (by decide)⟩

/-- C8: the servers handed to the batched per-tool MCP writers come only
from MCP items whose fix verb is `add-mcp` or `update-mcp`, resolved to
their canonical server records; consequently, when every MCP fix action
of a report is `remove-mcp`, the per-tool groups are all empty and no
server is passed to any writer (in dry-run or real mode alike). -/
theorem C8_remove_mcp_never_applied (report : SyncReport) :
    (∀ tool srv, srv ∈ mcpServersForTool report tool →
      ∃ item ∈ report.items, item.content_type = "mcp"
        ∧ item.tool = tool
        ∧ srv ∈ report.canonical.mcp_servers
        ∧ srv.name = item.item_name
        ∧ ∃ fa, item.fix_action = some fa
          ∧ (fa.action = FixActionType.addMcp
             ∨ fa.action = FixActionType.updateMcp))
    ∧ ((∀ item ∈ report.items, item.content_type = "mcp" →
          item.fix_action.isSome = true →
          fixVerb item = some FixActionType.removeMcp) →
        ∀ tool, mcpServersForTool report tool = []) := by
  constructor
  · intro tool srv hmem
    unfold mcpServersForTool at hmem
    obtain ⟨item, hitem, hf⟩ := List.mem_filterMap.mp hmem
    obtain ⟨hitems, hpred⟩ := List.mem_filter.mp hitem
    simp only [decide_eq_true_eq] at hpred
    unfold mcpServerForItem at hf
    split at hf
    · cases hf
    · rename_i fa hfa
      split at hf
      · rename_i hcond
        have hmemc := List.mem_of_find?_eq_some hf
        have hname := List.find?_some hf
        simp only [decide_eq_true_eq] at hname
        exact ⟨item, hitems, hpred.1, hcond.2, hmemc, hname, fa, hfa,
          hcond.1⟩
      · cases hf
  · intro hall tool
    unfold mcpServersForTool
    rw [List.filterMap_eq_nil_iff]
    intro item hitem
    obtain ⟨hitems, hpred⟩ := List.mem_filter.mp hitem
    simp only [decide_eq_true_eq] at hpred
    unfold mcpServerForItem
    split
    · rfl
    · rename_i fa hfa
      have hv := hall item hitems hpred.1 (by rw [hfa]; rfl)
      rw [fixVerb, hfa] at hv
      simp only [Option.map_some'] at hv
      obtain hact := Option.some_injective _ hv
      rw [if_neg]
      rintro ⟨hor, -⟩
      rcases hor with h | h <;> rw [hact] at h <;> cases h

/-- Witness for C8: a report whose only MCP fix action is `remove-mcp`
yields an empty Copilot writer group, while an `add-mcp` report yields its
canonical server. -/
theorem C8_remove_mcp_never_applied_witness :
    mcpServersForTool reportRemove ToolName.copilot = []
    ∧ mcpServersForTool reportAdd ToolName.copilot = [srvContext7] :=
  ⟨(C8_remove_mcp_never_applied reportRemove).2 (by decide) ToolName.copilot,
   by decide⟩

/-! ### Dry-run invariance lemmas for the fixers and writers -/

/-- The Copilot MCP writer does not mutate the world under dry-run. -/
theorem writeCopilotMcp_dry (w : World) (s : List McpServer) :
    (writeCopilotMcp w s true).2 = w := by
  simp [writeCopilotMcp]

/-- The Codex MCP writer does not mutate the world under dry-run. -/
theorem writeCodexMcp_dry (w : World) (s : List McpServer) :
    (writeCodexMcp w s true).2 = w := by
  by_cases h : w.codexConfigExists <;> simp [writeCodexMcp, h]

/-- The Claude additional-dirs fixer does not mutate under dry-run. -/
theorem fixClaudeAdditionalDirs_dry (w : World) :
    (fixClaudeAdditionalDirs w true).2 = w := by
  by_cases h : (checkClaudeAdditionalDirs w).1 <;>
    simp [fixClaudeAdditionalDirs, h]

/-- The Copilot additional-dirs fixer does not mutate under dry-run. -/
theorem fixCopilotAdditionalDirs_dry (w : World) :
    (fixCopilotAdditionalDirs w true).2 = w := by
  by_cases h : (checkCopilotAdditionalDirs w).1 <;>
    simp [fixCopilotAdditionalDirs, h]

/-- The symlink fixer does not mutate under dry-run. -/
theorem fixClaudeSkillsSymlink_dry (w : World) :
    (fixClaudeSkillsSymlink w true).2 = w := by
  by_cases h : (checkClaudeSkillsSymlink w).1 <;>
    simp [fixClaudeSkillsSymlink, h]

/-- The Claude command writer does not mutate under dry-run. -/
theorem writeClaudeCommand_dry (w : World) (cmd : Command) :
    (writeClaudeCommand w cmd true).2 = w := by
  simp [writeClaudeCommand]

/-- The Codex prompt writer does not mutate under dry-run. -/
theorem writeCodexPrompt_dry (w : World) (cmd : Command) :
    (writeCodexPrompt w cmd true).2 = w := by
  simp [writeCodexPrompt]

/-- The command-sync loop does not mutate under dry-run. -/
theorem syncCommandsAux_dry (cmds : List Command) :
    ∀ st : List String × World, (syncCommandsAux cmds true st).2 = st.2 := by
  induction cmds with
  | nil => intro st; rfl
  | cons cmd rest ih =>
    intro st
    unfold syncCommandsAux
    rw [ih]
    by_cases h1 : ToolName.claude ∈ commandTargets cmd <;>
      by_cases h2 : ToolName.codex ∈ commandTargets cmd <;>
      simp [h1, h2, writeClaudeCommand_dry, writeCodexPrompt_dry]

/-- Step 1a preserves the world under dry-run. -/
theorem afStepCopilotMcp_dry (report : SyncReport)
    (st : List String × World) :
    (afStepCopilotMcp report true st).2 = st.2 := by
  by_cases h : mcpServersForTool report ToolName.copilot = [] <;>
    simp [afStepCopilotMcp, h, writeCopilotMcp_dry]

/-- Step 1b preserves the world under dry-run. -/
theorem afStepCodexMcp_dry (report : SyncReport)
    (st : List String × World) :
    (afStepCodexMcp report true st).2 = st.2 := by
  by_cases h : mcpServersForTool report ToolName.codex = [] <;>
    simp [afStepCodexMcp, h, writeCodexMcp_dry]

/-- Step 1c never touches the world. -/
theorem afStepClaudeSkip_snd (report : SyncReport)
    (st : List String × World) :
    (afStepClaudeSkip report st).2 = st.2 := by
  by_cases h : mcpServersForTool report ToolName.claude = [] <;>
    simp [afStepClaudeSkip, h]

/-- Step 2a preserves the world under dry-run. -/
theorem afStepClaudeDirs_dry (report : SyncReport)
    (st : List String × World) :
    (afStepClaudeDirs report true st).2 = st.2 := by
  simp only [afStepClaudeDirs]
  split
  · rfl
  · simp [fixClaudeAdditionalDirs_dry]

/-- Step 2b preserves the world under dry-run. -/
theorem afStepCopilotDirs_dry (report : SyncReport)
    (st : List String × World) :
    (afStepCopilotDirs report true st).2 = st.2 := by
  simp only [afStepCopilotDirs]
  split
  · rfl
  · simp [fixCopilotAdditionalDirs_dry]

/-- Step 3 preserves the world under dry-run. -/
theorem afStepSymlink_dry (report : SyncReport)
    (st : List String × World) :
    (afStepSymlink report true st).2 = st.2 := by
  simp only [afStepSymlink]
  split
  · rfl
  · simp [fixClaudeSkillsSymlink_dry]

/-- Step 4 preserves the world under dry-run. -/
theorem afStepCommands_dry (report : SyncReport)
    (st : List String × World) :
    (afStepCommands report true st).2 = st.2 := by
  simp only [afStepCommands]
  split
  · split
    · rfl
    · simp [syncCommands, syncCommandsAux_dry]
  · rfl

/-- `apply_fixes` with dry_run leaves the world unchanged. -/
theorem applyFixes_dry_world (w : World) (report : SyncReport) :
    (applyFixes w report true).2 = w := by
  unfold applyFixes
  rw [afStepCommands_dry, afStepSymlink_dry, afStepCopilotDirs_dry,
    afStepClaudeDirs_dry, afStepClaudeSkip_snd, afStepCodexMcp_dry,
    afStepCopilotMcp_dry]

/-- C9: every infrastructure fixer re-checks its precondition and, when
already valid, returns the "Already valid" description without writing;
with dry_run each fixer short-circuits to its "Would ..." description
without mutating the world; `apply_fixes` under dry-run leaves the world
unchanged, so a second dry-run call returns an identical action list. -/
theorem C9_fixers_idempotent_dry_run (w : World) :
    (∀ d : String, checkClaudeSkillsSymlink w = (true, d) →
      ∀ dry : Bool, fixClaudeSkillsSymlink w dry = ("Already valid: " ++ d, w))
    ∧ (∀ d : String, checkClaudeAdditionalDirs w = (true, d) →
      ∀ dry : Bool,
        fixClaudeAdditionalDirs w dry = ("Already valid: " ++ d, w))
    ∧ (∀ d : String, checkCopilotAdditionalDirs w = (true, d) →
      ∀ dry : Bool,
        fixCopilotAdditionalDirs w dry = ("Already valid: " ++ d, w))
    ∧ ((checkClaudeSkillsSymlink w).1 = false →
      fixClaudeSkillsSymlink w true
        = ("Would create junction " ++ w.paths.claudeSymlinkSkills ++ " → "
            ++ w.paths.canonicalSkillsDir, w))
    ∧ ((checkClaudeAdditionalDirs w).1 = false →
      fixClaudeAdditionalDirs w true
        = ("Would add " ++ w.paths.canonicalSkillsDir
            ++ " to Claude additionalDirectories", w))
    ∧ ((checkCopilotAdditionalDirs w).1 = false →
      fixCopilotAdditionalDirs w true
        = ("Would add " ++ w.paths.canonicalSkillsDir
            ++ " to Copilot additionalDirectories", w))
    ∧ (∀ report : SyncReport, (applyFixes w report true).2 = w)
    ∧ (∀ report : SyncReport,
        applyFixes ((applyFixes w report true).2) report true
          = applyFixes w report true) := by
  refine ⟨?_, ?_, ?_, ?_, ?_, ?_, fun report => applyFixes_dry_world w report,
    ?_⟩
  · intro d hd dry
    simp [fixClaudeSkillsSymlink, hd]
  · intro d hd dry
    simp [fixClaudeAdditionalDirs, hd]
  · intro d hd dry
    simp [fixCopilotAdditionalDirs, hd]
  · intro hd
    simp [fixClaudeSkillsSymlink, hd]
  · intro hd
    simp [fixClaudeAdditionalDirs, hd]
  · intro hd
    simp [fixCopilotAdditionalDirs, hd]
  · intro report
    rw [applyFixes_dry_world]

/-- Witness for C9: on a valid world the Claude-dirs fixer reports
"Already valid" and does not write; on an invalid world the dry-run fixer
reports "Would add"; dry-run apply_fixes leaves the world unchanged. -/
theorem C9_fixers_idempotent_dry_run_witness :
    fixClaudeAdditionalDirs worldOk false
      = ("Already valid: OK: /home/u/.agents/skills → 2 skills accessible",
         worldOk)
    ∧ fixClaudeAdditionalDirs worldBad true
      = ("Would add /home/u/.agents/skills to Claude additionalDirectories",
         worldBad)
    ∧ (applyFixes worldOk reportMixed true).2 = worldOk :=
  ⟨(C9_fixers_idempotent_dry_run worldOk).2.1
      "OK: /home/u/.agents/skills → 2 skills accessible" (by decide) false,
   (C9_fixers_idempotent_dry_run worldBad).2.2.2.2.1 (by decide),
   (C9_fixers_idempotent_dry_run worldOk).2.2.2.2.2.2.1 reportMixed⟩

end AgentSync
